import Mathlib

/-!
Shallow embedding of the balance-derivation core of `@polkadot/api-derive`
(`packages/api-derive/src/balances/all.ts`): the lock resolver (`calcLocked`),
the shared-view composer (`calcShared`), the vesting projection and top-level
assembly (`calcBalances`), the current-shape multi-instance query adapter
(`queryCurrent`) and the orchestrator's short-circuit for unknown accounts
(`all`).

Modelling conventions:
* All on-chain integers (`Balance`, `BlockNumber`, `BN`) are arbitrary-precision
  in the source (bn.js); they are embedded as `Nat` where the source value is
  necessarily non-negative, and intermediate signed subtractions are taken in
  `Int`.
* `amount.isMax()` on a `u128` `Balance` compares against `2^128 - 1`; the
  sentinel is the constant `BALANCE_MAX`.
* A lock's `until` field is `Option Nat`: `none` models the current wire shape
  (no `until` property, JS `undefined`); `some u` models the legacy
  `BalanceLockTo212` shape, where `until` is a codec *object* and hence truthy
  in JS even when its numeric value is zero.
* `BN.div` throws on a zero divisor and truncates otherwise; it is embedded as
  `Option Nat` (`none` = the thrown "division by zero"), and the functions that
  can reach it return `Option` results, `none` modelling a thrown exception.
* Reactive plumbing (rxjs observables) is outside the embedding: each function
  models the pure computation performed on one emission.
-/

namespace ApiDeriveBalances

/-- `u128` maximum: the value recognised by `amount.isMax()`, the "fully
frozen" sentinel. -/
def BALANCE_MAX : Nat := 2 ^ 128 - 1

/-- The reserved vesting lock identifier, `'0x76657374696e6720'`
(ASCII "vesting "), compared against `id.eq(VESTING_ID)`. -/
def VESTING_ID : Nat := 0x76657374696e6720

/-- One lock entry. `id` is the 8-byte tag as a number; `until` is `none` for
the current `BalanceLock` shape (field absent) and `some u` for the legacy
`BalanceLockTo212` shape. -/
structure BalanceLock where
  id : Nat
  amount : Nat
  untilBlock : Option Nat
deriving DecidableEq, Repr

/-- The filter predicate of line 44,
`({ until }) => !until || (bestNumber && until.gt(bestNumber))`:
`!until` is true exactly when the property is absent (`undefined`), because a
present `until` is a codec object and objects are truthy in JS regardless of
numeric value; `bestNumber` is likewise always a truthy object, so the second
disjunct reduces to `until.gt(bestNumber)`. -/
def lockActive (bestNumber : Nat) (l : BalanceLock) : Bool :=
  match l.untilBlock with
  | none => true
  | some u => decide (bestNumber < u)

/-- `bnMax(...)` over the non-negative amounts of a (nonempty) list: since every
`Nat` is `≥ 0`, the variadic reduce-max equals a fold from `0`. -/
def bnMaxList (xs : List Nat) : Nat := xs.foldl max 0

/-- Result record of `calcLocked` (the `AllLocked` interface). -/
structure AllLocked where
  allLocked : Bool
  lockedBalance : Nat
  lockedBreakdown : List BalanceLock
  vestingLocked : Nat
deriving DecidableEq, Repr

/-- `calcLocked` (lines 36-57). The `locks` argument is `Option` because the
call sites can pass `allLocks[0]` of an empty array (JS `undefined`), which
fails the `Array.isArray` guard and leaves every output at its zero default. -/
def calcLocked (bestNumber : Nat) (locks : Option (List BalanceLock)) : AllLocked :=
  match locks with
  | none => { allLocked := false, lockedBalance := 0, lockedBreakdown := [], vestingLocked := 0 }
  | some ls =>
    let lockedBreakdown := ls.filter (lockActive bestNumber)
    let allLocked := lockedBreakdown.any (fun l => l.amount == BALANCE_MAX)
    let vestingLocked :=
      (lockedBreakdown.filter (fun l => l.id == VESTING_ID)).foldl (fun r l => r + l.amount) 0
    let notAll := lockedBreakdown.filter (fun l => !(l.amount == BALANCE_MAX))
    let lockedBalance := if notAll.isEmpty then 0 else bnMaxList (notAll.map (·.amount))
    { allLocked := allLocked, lockedBalance := lockedBalance,
      lockedBreakdown := lockedBreakdown, vestingLocked := vestingLocked }

/-- Per-instance raw balance components (the parts of
`DeriveBalancesAccountData` this core reads). -/
structure AccountData where
  freeBalance : Nat
  reservedBalance : Nat
deriving DecidableEq, Repr

/-- Derived per-instance view (`DeriveBalancesAllAccountData`): the raw
components spread together with the lock-resolver outputs. -/
structure SharedView where
  data : AccountData
  availableBalance : Nat
  lockedBalance : Nat
  lockedBreakdown : List BalanceLock
  vestingLocked : Nat
deriving DecidableEq, Repr

/-- `calcShared` (lines 59-69): `availableBalance` is
`allLocked ? 0 : bnMax(new BN(0), freeBalance.sub(lockedBalance))`; the inner
subtraction is signed in bn.js, so it is taken in `Int` and clamped at 0. -/
def calcShared (bestNumber : Nat) (data : AccountData) (locks : Option (List BalanceLock)) :
    SharedView :=
  let r := calcLocked bestNumber locks
  { data := data
    availableBalance :=
      if r.allLocked then 0
      else (max 0 ((data.freeBalance : Int) - (r.lockedBalance : Int))).toNat
    lockedBalance := r.lockedBalance
    lockedBreakdown := r.lockedBreakdown
    vestingLocked := r.vestingLocked }

/-- Normalized vesting schedule (`VestingInfo`): `locked` is the total. -/
structure VestingInfo where
  locked : Nat
  perBlock : Nat
  startingBlock : Nat
deriving DecidableEq, Repr

/-- `api.registry.createType('VestingInfo')`: the all-zero default used when no
schedule is present (line 76-77, `vesting || emptyVest`). -/
def emptyVest : VestingInfo := { locked := 0, perBlock := 0, startingBlock := 0 }

/-- The account-level result of the balance-components feed
(`DeriveBalancesAccount`): primary components, nonce, the empty-id flag and the
components of every secondary balance-module instance. -/
structure DeriveBalancesAccount where
  accountIdEmpty : Bool
  accountNonce : Nat
  data : AccountData
  additional : List AccountData
deriving DecidableEq, Repr

/-- The full derived result (`DeriveBalancesAll`): the primary shared view, the
per-secondary-instance shared views and the vesting-progress fields.
`vestedClaimable` is kept in `Int` because the source computes it with signed
`BN` subtraction. -/
structure DeriveBalancesAll where
  shared : SharedView
  additional : List SharedView
  isVesting : Bool
  vestedBalance : Nat
  vestedClaimable : Int
  vestingEndBlock : Nat
  vestingPerBlock : Nat
  vestingTotal : Nat
deriving DecidableEq, Repr

/-- `BN.div`: bn.js asserts a nonzero divisor (throws "Division by zero") and
otherwise truncates toward zero; on naturals that is floor division. -/
def bnDiv (a b : Nat) : Option Nat :=
  if b = 0 then none else some (a / b)

/-- Line 78, `isStarted = bestNumber.gt(startingBlock)`: vesting has started
strictly after `startingBlock`. -/
def isStartedOf (bestNumber : Nat) (v : VestingInfo) : Bool :=
  decide (v.startingBlock < bestNumber)

/-- Line 79: `vestedNow = isStarted ? perBlock.mul(bestNumber.sub(startingBlock)) : new BN(0)`. -/
def vestedNowOf (bestNumber : Nat) (v : VestingInfo) : Nat :=
  if isStartedOf bestNumber v then v.perBlock * (bestNumber - v.startingBlock) else 0

/-- Line 80: `vestedBalance = vestedNow.gt(vestingTotal) ? vestingTotal : vestedNow`. -/
def vestedBalanceOf (bestNumber : Nat) (v : VestingInfo) : Nat :=
  if v.locked < vestedNowOf bestNumber v then v.locked else vestedNowOf bestNumber v

/-- Line 81: `isVesting = isStarted && !shared.vestingLocked.isZero()`. -/
def isVestingOf (bestNumber : Nat) (v : VestingInfo) (vestingLocked : Nat) : Bool :=
  isStartedOf bestNumber v && !(vestingLocked == 0)

/-- Line 91: `isVesting ? vestingTotal.div(perBlock).add(startingBlock) : 0` —
the division (and hence the possible bn.js divide-by-zero throw) is evaluated
exactly when `isVesting` holds. -/
def vestingEndBlockOf (v : VestingInfo) (isVesting : Bool) : Option Nat :=
  if isVesting then (bnDiv v.locked v.perBlock).map (· + v.startingBlock) else some 0

/-- Line 87: `allLocks.filter((_, i) => i !== 0).map((l, i) => calcShared(api,
bestNumber, data.additional[i], l))`. Indexing `data.additional` past its end
yields JS `undefined`, and `calcShared` then dereferences it — embedded as a
`none` (thrown) result. -/
def calcAdditional (bestNumber : Nat) :
    List AccountData → List (List BalanceLock) → Option (List SharedView)
  | _, [] => some []
  | [], _ :: _ => none
  | d :: ds, l :: ls =>
    (calcAdditional bestNumber ds ls).map (fun rest => calcShared bestNumber d (some l) :: rest)

/-- `calcBalances` (lines 71-95). `allLocks.head?` models `allLocks[0]` (JS
`undefined` when the array is empty). The result is `none` exactly when the
source would throw: `vestingTotal.div(perBlock)` with a zero `perBlock`
(reached whenever `isVesting` holds), or a missing `data.additional[i]`. -/
def calcBalances (account : DeriveBalancesAccount) (bestNumber : Nat)
    (vesting : Option VestingInfo) (allLocks : List (List BalanceLock)) :
    Option DeriveBalancesAll :=
  let shared := calcShared bestNumber account.data allLocks.head?
  let v := vesting.getD emptyVest
  let isVesting := isVestingOf bestNumber v shared.vestingLocked
  (calcAdditional bestNumber account.additional allLocks.tail).bind fun adds =>
    (vestingEndBlockOf v isVesting).map fun endBlock =>
      { shared := shared
        additional := adds
        isVesting := isVesting
        vestedBalance := vestedBalanceOf bestNumber v
        vestedClaimable :=
          if isVesting then
            (shared.vestingLocked : Int) -
              ((v.locked : Int) - (vestedBalanceOf bestNumber v : Int))
          else 0
        vestingEndBlock := endBlock
        vestingPerBlock := v.perBlock
        vestingTotal := v.locked }

/-- The reconstruction step of `queryCurrent` (line 142):
`lockEmpty.map((e) => e ? api.registry.createType('Vec<BalanceLock>') : locks[++offset])`.
Positions whose lock query resolved consume the batch answers in order;
unresolved positions get a fresh empty list. An exhausted answer list gives JS
`undefined`, embedded as `none`. -/
def rebuildLocks : List Bool → List (List BalanceLock) → List (Option (List BalanceLock))
  | [], _ => []
  | true :: es, rs => some [] :: rebuildLocks es rs
  | false :: es, rs => rs.head? :: rebuildLocks es rs.tail

/-- `queryCurrent` (lines 120-146), current chain shape, reduced to its pure
normalization: `resolvable` records, per configured balance-module instance,
whether a lock query was found (custom override or the module's own `locks`);
`lockEmpty = calls.map(c => !c)`; `vestingAnswer` is the unwrapped optional
schedule (`none` both when the chain has no vesting module and when the stored
option is empty); `lockAnswers` holds the batch's reply, one list per resolved
query, in instance order. -/
def queryCurrent (resolvable : List Bool) (vestingAnswer : Option VestingInfo)
    (lockAnswers : List (List BalanceLock)) :
    Option VestingInfo × List (Option (List BalanceLock)) :=
  let lockEmpty := resolvable.map (fun c => !c)
  (vestingAnswer, rebuildLocks lockEmpty lockAnswers)

/-- Modelled from the spec: the account-components derive
(`api.derive.balances.account`, not under `src/`) emits zero-valued components
for an account that does not exist on-chain (`accountId.isEmpty`). -/
def unknownAccount : DeriveBalancesAccount :=
  { accountIdEmpty := true, accountNonce := 0,
    data := { freeBalance := 0, reservedBalance := 0 }, additional := [] }

/-- The switchMap body of `all` (lines 168-178): an account with a non-empty id
combines the live best number with the adapter's answer; an empty id
short-circuits to `of([account, createType('BlockNumber') /- = 0 -/, [null, []]])`
without issuing the lock/vesting queries, so the queried values are ignored. -/
def allCombine (account : DeriveBalancesAccount) (bestNumber : Nat)
    (queried : Option VestingInfo × List (List BalanceLock)) :
    DeriveBalancesAccount × Nat × (Option VestingInfo × List (List BalanceLock)) :=
  if account.accountIdEmpty then (account, 0, (none, [])) else (account, bestNumber, queried)

/-- One emission of `api.derive.balances.all` (line 166-181): the combined
tuple fed through `calcBalances`. -/
def all (account : DeriveBalancesAccount) (bestNumber : Nat)
    (queried : Option VestingInfo × List (List BalanceLock)) : Option DeriveBalancesAll :=
  let t := allCombine account bestNumber queried
  calcBalances t.1 t.2.1 t.2.2.1 t.2.2.2

/-- The all-zero derived result emitted for an unknown account. -/
def zeroDerived : DeriveBalancesAll :=
  { shared :=
      { data := { freeBalance := 0, reservedBalance := 0 }
        availableBalance := 0
        lockedBalance := 0
        lockedBreakdown := []
        vestingLocked := 0 }
    additional := []
    isVesting := false
    vestedBalance := 0
    vestedClaimable := 0
    vestingEndBlock := 0
    vestingPerBlock := 0
    vestingTotal := 0 }

/-- A concrete existing account with 50 free units, used as sample input. -/
def sampleAccount : DeriveBalancesAccount :=
  { accountIdEmpty := false, accountNonce := 0,
    data := { freeBalance := 50, reservedBalance := 0 }, additional := [] }

/-- Derived result for `sampleAccount` at height 8 under the schedule
`(total 100, perBlock 10, startingBlock 5)` with a 40-unit vesting-tagged
lock. -/
def sampleResult100 : DeriveBalancesAll :=
  { shared :=
      { data := { freeBalance := 50, reservedBalance := 0 }
        availableBalance := 10
        lockedBalance := 40
        lockedBreakdown := [{ id := VESTING_ID, amount := 40, untilBlock := none }]
        vestingLocked := 40 }
    additional := []
    isVesting := true
    vestedBalance := 30
    vestedClaimable := -30
    vestingEndBlock := 15
    vestingPerBlock := 10
    vestingTotal := 100 }

/-- Derived result for `sampleAccount` at height 6 under the schedule
`(total 95, perBlock 10, startingBlock 5)` with a 7-unit vesting-tagged
lock. -/
def sampleResult95 : DeriveBalancesAll :=
  { shared :=
      { data := { freeBalance := 50, reservedBalance := 0 }
        availableBalance := 43
        lockedBalance := 7
        lockedBreakdown := [{ id := VESTING_ID, amount := 7, untilBlock := none }]
        vestingLocked := 7 }
    additional := []
    isVesting := true
    vestedBalance := 10
    vestedClaimable := -78
    vestingEndBlock := 14
    vestingPerBlock := 10
    vestingTotal := 95 }

/-! ## Helper lemmas -/

/-- The line-44 filter keeps a lock exactly when its `until` field is absent or
strictly greater than the current height. -/
theorem lockActive_iff (n : Nat) (l : BalanceLock) :
    lockActive n l = true ↔ l.untilBlock = none ∨ ∃ u, l.untilBlock = some u ∧ n < u := by
  cases h : l.untilBlock <;> simp [lockActive, h]

/-- A left fold of `max` over naturals starting at `0` computes the list
maximum, with default `0` for the empty list. -/
theorem foldl_max_getD (xs : List Nat) : xs.foldl max 0 = xs.max?.getD 0 := by
  rw [List.foldl_max]
  exact Nat.zero_max _

/-- A left fold accumulating `f`-values equals the sum of the mapped list. -/
theorem foldl_add_map_sum (f : BalanceLock → Nat) (ls : List BalanceLock) :
    ∀ a : Nat, ls.foldl (fun r l => r + f l) a = a + (ls.map f).sum := by
  induction ls with
  | nil => intro a; simp
  | cons l ls ih => intro a; simp [ih]; omega

/-- `rebuildLocks` yields one entry per instance flag. -/
theorem rebuildLocks_length (es : List Bool) :
    ∀ rs : List (List BalanceLock), (rebuildLocks es rs).length = es.length := by
  induction es with
  | nil => intro rs; rfl
  | cons e es ih => intro rs; cases e <;> simp [rebuildLocks, ih]

/-- Positionwise description of the adapter's reconstruction: when the batch
answers one list per resolved instance, position `i` receives an empty list if
instance `i` was unresolved, and otherwise the answer whose rank equals the
number of resolved instances before `i`. -/
theorem rebuildLocks_getD (res : List Bool) :
    ∀ (ans : List (List BalanceLock)) (i : Nat), ans.length = res.count true → i < res.length →
      (rebuildLocks (res.map fun c => !c) ans).getD i none =
        if res.getD i false then some (ans.getD ((res.take i).count true) []) else some [] := by
  induction res with
  | nil => intro ans i _ hi; simp at hi
  | cons b bs ih =>
    intro ans i h hi
    cases b with
    | true =>
      have hcount : ans.length = bs.count true + 1 := by
        simpa [List.count_cons] using h
      cases ans with
      | nil => simp at hcount
      | cons a as =>
        cases i with
        | zero => simp [rebuildLocks]
        | succ j =>
          have hj : j < bs.length := by simpa using hi
          have has : as.length = bs.count true := by simpa using hcount
          have := ih as j has hj
          simpa [rebuildLocks, List.count_cons, List.take_succ_cons] using this
    | false =>
      have hcount : ans.length = bs.count true := by
        simpa [List.count_cons] using h
      cases i with
      | zero => simp [rebuildLocks]
      | succ j =>
        have hj : j < bs.length := by simpa using hi
        have := ih ans j hcount hj
        simpa [rebuildLocks, List.count_cons, List.take_succ_cons] using this

/-- Inversion of a successful `calcBalances`: the vesting-projection fields of
the emitted record, in terms of the inputs. -/
theorem calcBalances_proj (account : DeriveBalancesAccount) (bestNumber : Nat)
    (vesting : Option VestingInfo) (allLocks : List (List BalanceLock)) (r : DeriveBalancesAll)
    (h : calcBalances account bestNumber vesting allLocks = some r) :
    r.vestedBalance = vestedBalanceOf bestNumber (vesting.getD emptyVest) ∧
    r.isVesting = isVestingOf bestNumber (vesting.getD emptyVest)
      (calcShared bestNumber account.data allLocks.head?).vestingLocked ∧
    vestingEndBlockOf (vesting.getD emptyVest)
      (isVestingOf bestNumber (vesting.getD emptyVest)
        (calcShared bestNumber account.data allLocks.head?).vestingLocked) =
      some r.vestingEndBlock := by
  simp only [calcBalances] at h
  cases hA : calcAdditional bestNumber account.additional allLocks.tail with
  | none => rw [hA] at h; simp at h
  | some adds =>
    rw [hA] at h
    simp only [Option.some_bind] at h
    cases hE : vestingEndBlockOf (vesting.getD emptyVest)
        (isVestingOf bestNumber (vesting.getD emptyVest)
          (calcShared bestNumber account.data allLocks.head?).vestingLocked) with
    | none => rw [hE] at h; simp at h
    | some e =>
      rw [hE] at h
      simp only [Option.map_some'] at h
      cases h
      exact ⟨rfl, rfl, rfl⟩

/-- The reported `vestedBalance` is the clamped linear projection. -/
theorem vestedBalanceOf_min (n : Nat) (v : VestingInfo) :
    vestedBalanceOf n v =
      min (if v.startingBlock < n then v.perBlock * (n - v.startingBlock) else 0) v.locked := by
  unfold vestedBalanceOf vestedNowOf isStartedOf
  simp only [decide_eq_true_eq]
  by_cases hs : v.startingBlock < n
  · rw [if_pos hs]
    cases Nat.lt_or_ge v.locked (v.perBlock * (n - v.startingBlock)) with
    | inl h => rw [if_pos h, Nat.min_def, if_neg (by omega)]
    | inr h => rw [if_neg (by omega), Nat.min_def, if_pos (by omega)]
  · rw [if_neg hs]
    simp [Nat.min_def]

/-- `isVesting` is true exactly when vesting has started and the vesting-tagged
locked amount is nonzero. -/
theorem isVestingOf_iff (n : Nat) (v : VestingInfo) (vl : Nat) :
    isVestingOf n v vl = true ↔ v.startingBlock < n ∧ vl ≠ 0 := by
  simp [isVestingOf, isStartedOf]

/-! ## Claims -/

/-- Claim C1, counterexample: the claim keeps an entry whose `until` equals
zero as "indefinite", but `calcLocked` excludes it — at height 3 a lock with
`until = 0` does not appear in `lockedBreakdown` (a present `until` is a truthy
codec object, so only `until.gt(bestNumber)` decides, and `0 > 3` fails). -/
theorem c1_until_zero_excluded :
    (calcLocked 3 (some [{ id := 0, amount := 5, untilBlock := some 0 }])).lockedBreakdown
      = [] := by
  decide

/-- Claim C1 (amended): for every height and lock list, `lockedBreakdown`
contains exactly the entries whose `until` field is absent or strictly greater
than the current height; an entry with a present `until` — zero included — is
excluded whenever `until ≤ height`, so `until = 0` is never kept. -/
theorem c1_lockedBreakdown_membership (n : Nat) (ls : List BalanceLock) (l : BalanceLock) :
    l ∈ (calcLocked n (some ls)).lockedBreakdown ↔
      l ∈ ls ∧ (l.untilBlock = none ∨ ∃ u, l.untilBlock = some u ∧ n < u) := by
  simp [calcLocked, List.mem_filter, lockActive_iff]

/-- Claim C2: at height 1, with no vesting schedule but an active
vesting-tagged lock, the code computes `isVesting = true` and reaches
`vestingTotal.div(perBlock)` with both operands zero — bn.js throws
"Division by zero" (embedded: the result is `none`), instead of producing the
all-zero vesting fields the claim requires. -/
theorem c2_no_schedule_divide_by_zero :
    calcBalances
      { accountIdEmpty := false, accountNonce := 0,
        data := { freeBalance := 50, reservedBalance := 0 }, additional := [] }
      1 none [[{ id := VESTING_ID, amount := 5, untilBlock := none }]] = none := by
  decide

/-- Claim C4: `availableBalance` is 0 when some active lock's amount equals the
sentinel maximum, and `max(0, freeBalance − lockedBalance)` otherwise — for
every height, balance components and lock input (present or missing). -/
theorem c4_availableBalance (n : Nat) (d : AccountData) (locks : Option (List BalanceLock)) :
    ((calcShared n d locks).availableBalance : Int) =
      if ∃ l ∈ locks.getD [], lockActive n l = true ∧ l.amount = BALANCE_MAX then 0
      else max 0 ((d.freeBalance : Int) - ((calcShared n d locks).lockedBalance : Int)) := by
  cases locks with
  | none => simp [calcShared, calcLocked, Int.toNat_of_nonneg, le_max_left]
  | some ls =>
    have hall : ((ls.filter (lockActive n)).any (fun l => l.amount == BALANCE_MAX) = true)
        ↔ ∃ l ∈ ls, lockActive n l = true ∧ l.amount = BALANCE_MAX := by
      simp [List.any_eq_true, List.mem_filter, and_assoc]
    by_cases hex : ∃ l ∈ ls, lockActive n l = true ∧ l.amount = BALANCE_MAX
    · have : (ls.filter (lockActive n)).any (fun l => l.amount == BALANCE_MAX) = true :=
        hall.mpr hex
      simp [calcShared, calcLocked, this, hex]
    · have : (ls.filter (lockActive n)).any (fun l => l.amount == BALANCE_MAX) = false := by
        rw [← Bool.not_eq_true]; exact fun hc => hex (hall.mp hc)
      simp [calcShared, calcLocked, this, hex, Int.toNat_of_nonneg, le_max_left]

/-- Claim C5: `lockedBalance` equals the maximum single amount among the active
entries whose amount is not the sentinel maximum, and 0 when no such entry
exists. -/
theorem c5_lockedBalance_max (n : Nat) (ls : List BalanceLock) :
    (calcLocked n (some ls)).lockedBalance =
      ((((calcLocked n (some ls)).lockedBreakdown.filter
          (fun l => !(l.amount == BALANCE_MAX))).map (·.amount)).max?).getD 0 := by
  simp only [calcLocked]
  cases hl : (ls.filter (lockActive n)).filter (fun l => !(l.amount == BALANCE_MAX)) with
  | nil => simp [hl]
  | cons x xs =>
    simp [hl, bnMaxList, foldl_max_getD]
    rw [List.foldl_max]
    cases hm : (xs.map (·.amount)).max? <;> simp [hm]

/-- Claim C8: `vestingLocked` equals the sum of the amounts of the active
entries whose 8-byte id equals the reserved vesting tag. -/
theorem c8_vestingLocked_sum (n : Nat) (ls : List BalanceLock) :
    (calcLocked n (some ls)).vestingLocked =
      (((calcLocked n (some ls)).lockedBreakdown.filter (fun l => l.id == VESTING_ID)).map
        (·.amount)).sum := by
  simp only [calcLocked]
  rw [foldl_add_map_sum]
  simp

/-- Claim C9: for an account that does not exist on-chain (`accountId` empty),
the derivation short-circuits: whatever the best number and whatever the
lock/vesting queries would have answered, the emitted value is the all-zero
success result — so no lock or vesting query is consulted and no error is
raised. -/
theorem c9_unknown_account_zero (bestNumber : Nat)
    (queried : Option VestingInfo × List (List BalanceLock)) :
    all unknownAccount bestNumber queried = some zeroDerived := by
  rfl

/-- Claim C10: the composed `availableBalance` always lies between 0 and
`freeBalance`, for every height, components value and lock input (missing
input included). -/
theorem c10_available_bounds (n : Nat) (d : AccountData) (locks : Option (List BalanceLock)) :
    0 ≤ ((calcShared n d locks).availableBalance : Int) ∧
      ((calcShared n d locks).availableBalance : Int) ≤ (d.freeBalance : Int) := by
  refine ⟨Int.natCast_nonneg _, ?_⟩
  simp only [calcShared]
  by_cases hall : (calcLocked n locks).allLocked
  · simp [hall]
  · simp only [hall, if_false, Bool.false_eq_true]
    omega

/-- Claim C3, counterexample: at `total = 95`, `perBlock = 10`,
`startingBlock = 5`, with vesting in progress at height 6, the code reports
`vestingEndBlock = 14` — the truncated quotient — while the claim demands the
rounded-up value `5 + ceil(95/10) = 15`. -/
theorem c3_endBlock_not_rounded_up :
    ((calcBalances sampleAccount 6 (some { locked := 95, perBlock := 10, startingBlock := 5 })
        [[{ id := VESTING_ID, amount := 7, untilBlock := none }]]).map
          DeriveBalancesAll.isVesting = some true) ∧
    ((calcBalances sampleAccount 6 (some { locked := 95, perBlock := 10, startingBlock := 5 })
        [[{ id := VESTING_ID, amount := 7, untilBlock := none }]]).map
          DeriveBalancesAll.vestingEndBlock = some 14) ∧
    5 + (95 + 10 - 1) / 10 = 15 :=
  ⟨by decide, by decide, by decide⟩

/-- Claim C3 (amended): for every vesting schedule with `perBlock > 0`,
whenever the reported `isVesting` is true, `vestingEndBlock` equals
`startingBlock + total / perBlock` with truncating (floor) division — not the
rounded-up quotient. -/
theorem c3_vestingEndBlock_floor (account : DeriveBalancesAccount) (bestNumber : Nat)
    (v : VestingInfo) (allLocks : List (List BalanceLock)) (r : DeriveBalancesAll)
    (hpb : 0 < v.perBlock)
    (h : calcBalances account bestNumber (some v) allLocks = some r)
    (hv : r.isVesting = true) :
    r.vestingEndBlock = v.startingBlock + v.locked / v.perBlock := by
  obtain ⟨-, hiv, hE⟩ := calcBalances_proj account bestNumber (some v) allLocks r h
  simp only [Option.getD_some] at hiv hE
  rw [hv] at hiv
  rw [← hiv] at hE
  have hpb' : v.perBlock ≠ 0 := by omega
  simp [vestingEndBlockOf, bnDiv, hpb'] at hE
  omega

/-- Claim C6: under the current chain shape, the adapter returns exactly one
lock list per configured balance-module instance, in order: a position whose
lock query resolved receives the batch answer whose rank is the number of
resolved positions before it, and every unresolved position receives a fresh
empty list — no position fails. -/
theorem c6_queryCurrent_instances (resolvable : List Bool) (vestingAnswer : Option VestingInfo)
    (lockAnswers : List (List BalanceLock))
    (h : lockAnswers.length = resolvable.count true) :
    (queryCurrent resolvable vestingAnswer lockAnswers).2.length = resolvable.length ∧
    ∀ i, i < resolvable.length →
      (queryCurrent resolvable vestingAnswer lockAnswers).2.getD i none =
        if resolvable.getD i false then
          some (lockAnswers.getD ((resolvable.take i).count true) [])
        else some [] := by
  refine ⟨by simp [queryCurrent, rebuildLocks_length], ?_⟩
  intro i hi
  simpa [queryCurrent] using rebuildLocks_getD resolvable lockAnswers i h hi

/-- Witness for C6: three configured instances of which only the middle one
resolves a lock query yield a length-3 array with empty lists at positions 0
and 2 and the single answer at position 1. -/
theorem c6_queryCurrent_instances_witness :
    (([[{ id := 1, amount := 2, untilBlock := none }]] : List (List BalanceLock)).length
        = ([false, true, false] : List Bool).count true) ∧
    ((queryCurrent [false, true, false] none
        [[{ id := 1, amount := 2, untilBlock := none }]]).2.length
        = ([false, true, false] : List Bool).length ∧
      ∀ i, i < ([false, true, false] : List Bool).length →
        (queryCurrent [false, true, false] none
            [[{ id := 1, amount := 2, untilBlock := none }]]).2.getD i none =
          if ([false, true, false] : List Bool).getD i false then
            some (([[{ id := 1, amount := 2, untilBlock := none }]] :
              List (List BalanceLock)).getD
                ((([false, true, false] : List Bool).take i).count true) [])
          else some []) :=
  ⟨by decide,
    c6_queryCurrent_instances [false, true, false] none
      [[{ id := 1, amount := 2, untilBlock := none }]] (by decide)⟩

/-- Claim C7: vesting starts strictly after `startingBlock`; `vestedBalance` is
the linear projection clamped to the total; `isVesting` holds exactly when
vesting has started and the primary instance's vesting-tagged locked amount is
nonzero. -/
theorem c7_vesting_projection (account : DeriveBalancesAccount) (bestNumber : Nat)
    (v : VestingInfo) (allLocks : List (List BalanceLock)) (r : DeriveBalancesAll)
    (h : calcBalances account bestNumber (some v) allLocks = some r) :
    r.vestedBalance =
      min (if v.startingBlock < bestNumber then v.perBlock * (bestNumber - v.startingBlock) else 0)
        v.locked ∧
    (r.isVesting = true ↔ v.startingBlock < bestNumber ∧
      (calcShared bestNumber account.data allLocks.head?).vestingLocked ≠ 0) := by
  obtain ⟨hb, hiv, -⟩ := calcBalances_proj account bestNumber (some v) allLocks r h
  simp only [Option.getD_some] at hb hiv
  exact ⟨by rw [hb, vestedBalanceOf_min], by rw [hiv, isVestingOf_iff]⟩

/-- Witness for C7: `total = 100`, `perBlock = 10`, `startingBlock = 5` at
height 8 with a 40-unit active vesting-tagged lock gives `vestedBalance = 30`
and `isVesting = true`. -/
theorem c7_vesting_projection_witness :
    (calcBalances sampleAccount 8 (some { locked := 100, perBlock := 10, startingBlock := 5 })
        [[{ id := VESTING_ID, amount := 40, untilBlock := none }]] = some sampleResult100) ∧
    (sampleResult100.vestedBalance =
      min (if (5 : Nat) < 8 then 10 * (8 - 5) else 0) 100 ∧
      (sampleResult100.isVesting = true ↔ (5 : Nat) < 8 ∧
        (calcShared 8 sampleAccount.data
          ([[{ id := VESTING_ID, amount := 40, untilBlock := none }]] :
            List (List BalanceLock)).head?).vestingLocked ≠ 0)) :=
  ⟨by decide,
    c7_vesting_projection sampleAccount 8 { locked := 100, perBlock := 10, startingBlock := 5 }
      [[{ id := VESTING_ID, amount := 40, untilBlock := none }]] sampleResult100 (by decide)⟩

/-- Witness for C3 (amended): the `total = 95`, `perBlock = 10`,
`startingBlock = 5` schedule at height 6 ends at block `5 + 95/10 = 14`. -/
theorem c3_vestingEndBlock_floor_witness :
    (0 : Nat) < 10 ∧
    (calcBalances sampleAccount 6 (some { locked := 95, perBlock := 10, startingBlock := 5 })
        [[{ id := VESTING_ID, amount := 7, untilBlock := none }]] = some sampleResult95) ∧
    sampleResult95.isVesting = true ∧
    sampleResult95.vestingEndBlock = 5 + 95 / 10 :=
  ⟨by decide, by decide, by decide,
    c3_vestingEndBlock_floor sampleAccount 6 { locked := 95, perBlock := 10, startingBlock := 5 }
      [[{ id := VESTING_ID, amount := 7, untilBlock := none }]] sampleResult95
      (by decide) (by decide) (by decide)⟩

end ApiDeriveBalances
